import Mathlib

/-!
Verification of the Philips Hue integration glue
(`homeassistant/components/hue/__init__.py`) against its specification.

The file is a shallow embedding of the reviewed Python module:

* the scene-activation dispatcher `hue_activate_scene` (the nested handler
  registered by `async_setup`) is embedded as a pure function from the list
  of registered bridge behaviours and the service call to a `DispatchTrace`
  recording every pass, every per-bridge invocation with the keyword
  arguments it received, and every warning logged;
* the per-bridge collaborator `HueBridge.hue_activate_scene` lives in
  `hue/bridge.py`, outside the reviewed file, and is modelled from the
  spec's collaborator contract (`activateScene(...) -> Optional<ErrorInfo>`):
  a `none` result is a null return (success), `some e` a non-null result;
* `asyncio.gather` with its default `return_exceptions=False` is embedded
  over possibly-raising tasks (`Except`) to reason about exception escape;
* the lifecycle functions `async_setup`, `async_setup_entry` and
  `async_unload_entry` are embedded as explicit state transformers over a
  `HassState` record holding the slice of `hass` the module touches.
-/

namespace Hue

/-- A scene-activation service call: the payload read from
`call.data[ATTR_GROUP_NAME]` and `call.data[ATTR_SCENE_NAME]`. -/
structure SceneCall where
  groupName : String
  sceneName : String
deriving DecidableEq, Repr

/-- Modelled from the spec: the bridge-handle collaborator's scene-activation
operation (`HueBridge.hue_activate_scene`, defined in `hue/bridge.py`, outside
the reviewed file).  Per the collaborator contract it is
`activateScene(command, forceRefresh, hideWarnings) -> Optional<ErrorInfo>`;
the argument order follows the call site
`bridge.hue_activate_scene(call, updated=..., hide_warnings=...)`.
A `none` value is a null result (success); `some e` is a non-null result. -/
def BridgeBehavior : Type := SceneCall → Bool → Bool → Option String

/-- One per-bridge invocation made by the dispatcher, with the keyword
arguments `updated` and `hide_warnings` it passed.  `updated = true` means
refreshed mode (no forced topology reload); `hideWarnings = true` means the
bridge's internal warnings are suppressed. -/
structure Invocation where
  bridgeIdx : Nat
  updated : Bool
  hideWarnings : Bool
deriving DecidableEq, Repr

/-- One gather pass of the dispatcher: the `skip_reload` flag it ran under,
the invocations it fanned out, and the gathered per-bridge results. -/
structure Pass where
  skipReload : Bool
  invocations : List Invocation
  results : List (Option String)
deriving DecidableEq, Repr

/-- The observable behaviour of one dispatch: the passes executed in order
and the warnings logged via `_LOGGER.warning`. -/
structure DispatchTrace where
  passes : List Pass
  warnings : List String
deriving DecidableEq, Repr

/-- Lines 73-80: `tasks = [bridge.hue_activate_scene(call, updated=skip_reload,
hide_warnings=skip_reload) for bridge in hass.data[DOMAIN].values() ...]` and
`results = await asyncio.gather(*tasks)`: one concurrent pass over every
registered bridge, with both keyword arguments set to `skip_reload`. -/
def runPass (bridges : List BridgeBehavior) (call : SceneCall) (skipReload : Bool) : Pass :=
  { skipReload := skipReload
    invocations := (List.range bridges.length).map fun i => ⟨i, skipReload, skipReload⟩
    results := bridges.map fun bridge => bridge call skipReload skipReload }

/-- Lines 87-91: the warning text
`"No bridge was able to activate scene %s in group %s"` interpolated with the
scene and group names. -/
def hueWarningMsg (sceneName groupName : String) : String :=
  "No bridge was able to activate scene " ++ sceneName ++ " in group " ++ groupName

/-- The recursive call `hue_activate_scene(call, skip_reload=False)` of
line 86.  With `skip_reload` false the `if skip_reload:` branch is dead, so
when `None not in results` the dispatcher logs the warning and stops
(lines 84-91); otherwise it stops silently. -/
def hue_activate_scene_retry (bridges : List BridgeBehavior) (call : SceneCall) :
    DispatchTrace :=
  let p := runPass bridges call false
  if none ∉ p.results then
    { passes := [p], warnings := [hueWarningMsg call.sceneName call.groupName] }
  else
    { passes := [p], warnings := [] }

/-- Lines 66-91: `hue_activate_scene(call, skip_reload=True)` — the first pass
runs with `updated=hide_warnings=True`; if `None not in results` (no bridge
succeeded) it recurses exactly once with `skip_reload=False`; otherwise the
command is considered accepted and the dispatch ends. -/
def hue_activate_scene (bridges : List BridgeBehavior) (call : SceneCall) :
    DispatchTrace :=
  let p := runPass bridges call true
  if none ∉ p.results then
    let rest := hue_activate_scene_retry bridges call
    { passes := p :: rest.passes, warnings := rest.warnings }
  else
    { passes := [p], warnings := [] }

/-- Modelled from the spec: a per-bridge scene-activation task viewed as code
that could in principle raise (`Except.error`) instead of returning a result
value.  The collaborator contract of the spec says the real bridge operation
always returns an `Optional<ErrorInfo>` value, i.e. is always `Except.ok`. -/
def BridgeTask : Type := SceneCall → Bool → Bool → Except String (Option String)

/-- Line 80: `asyncio.gather(*tasks)` with the default
`return_exceptions=False` — the gathered value is the list of task results,
except that if any task raises, the exception propagates out of the gather. -/
def gatherResults :
    List (Except String (Option String)) → Except String (List (Option String))
  | [] => Except.ok []
  | r :: rs =>
    match r with
    | Except.error e => Except.error e
    | Except.ok v =>
      match gatherResults rs with
      | Except.error e => Except.error e
      | Except.ok vs => Except.ok (v :: vs)

/-- The dispatcher's fan-out of a single pass over possibly-raising bridge
tasks (lines 73-80). -/
def fanOut (bridges : List BridgeTask) (call : SceneCall) (skipReload : Bool) :
    Except String (List (Option String)) :=
  gatherResults (bridges.map fun bridge => bridge call skipReload skipReload)

/-! Lifecycle model: `async_setup`, `async_setup_entry`, `async_unload_entry`
as explicit state transformers over the slice of `hass` the module uses. -/

/-- `DOMAIN` from `hue/const.py`. -/
def DOMAIN : String := "hue"

/-- `dr.CONNECTION_NETWORK_MAC` of the device-registry collaborator. -/
def CONNECTION_NETWORK_MAC : String := "mac"

/-- Line 27: `DEFAULT_ALLOW_UNREACHABLE = False`. -/
def DEFAULT_ALLOW_UNREACHABLE : Bool := false

/-- Line 34: `DEFAULT_ALLOW_HUE_GROUPS = True`. -/
def DEFAULT_ALLOW_HUE_GROUPS : Bool := true

/-- One bridge configuration block (`BRIDGE_CONFIG_SCHEMA`): the host plus the
two booleans, with the schema defaults already applied. -/
structure BridgeConfig where
  host : String
  allow_unreachable : Bool
  allow_hue_groups : Bool
deriving DecidableEq, Repr

/-- The hue section of the static configuration (`CONFIG_SCHEMA`): the
optional `CONF_BRIDGES` list. -/
structure HueConf where
  bridges : Option (List BridgeConfig)
deriving DecidableEq, Repr

/-- The read-only configuration snapshot `bridge.api.config` exposed by the
bridge collaborator after a successful setup. -/
structure BridgeApiConfig where
  bridgeid : String
  mac : String
  name : String
  modelid : String
  swversion : String
  swupdate2_bridge_state : String
deriving DecidableEq, Repr

/-- A bridge registration stored under `hass.data[DOMAIN][host]`: the handle's
options and its api-config snapshot. -/
structure HueBridgeReg where
  allow_unreachable : Bool
  allow_hue_groups : Bool
  apiConfig : BridgeApiConfig
deriving DecidableEq, Repr

/-- A managed config entry (`config_entries.ConfigEntry`): its id, its
`data["host"]` and its `unique_id`. -/
structure ConfigEntry where
  entryId : String
  host : String
  uniqueId : Option String
deriving DecidableEq, Repr

/-- A record of the external device catalog (`device_registry`). -/
structure DeviceRecord where
  configEntryId : String
  connections : List (String × String)
  identifiers : List (String × String)
  manufacturer : String
  name : String
  model : String
  swVersion : String
deriving DecidableEq, Repr

/-- Association-list lookup, the read of a Python dict. -/
def lookupKey {α : Type} : List (String × α) → String → Option α
  | [], _ => none
  | p :: rest, k => if p.1 = k then some p.2 else lookupKey rest k

/-- Removal of a key, the effect of Python's `dict.pop(k)` on the mapping. -/
def eraseKey {α : Type} : List (String × α) → String → List (String × α)
  | [], _ => []
  | p :: rest, k => if p.1 = k then eraseKey rest k else p :: eraseKey rest k

/-- Key assignment `d[k] = v` of a Python dict. -/
def insertKey {α : Type} (l : List (String × α)) (k : String) (v : α) :
    List (String × α) :=
  eraseKey l k ++ [(k, v)]

/-- The slice of the `hass` object the reviewed module reads and writes:
`hass.data[DOMAIN]` (host → bridge registration), `hass.data[DATA_CONFIGS]`
(host → stored bridge config), the config-entry list, whether the
`hue_activate_scene` service handler is registered, the device catalog, the
hosts for which an import flow was scheduled (`hass.async_create_task` of
`flow.async_init`), the warnings logged, and the hosts whose bridge was torn
down via `async_reset`. -/
structure HassState where
  domainData : List (String × HueBridgeReg)
  dataConfigs : List (String × BridgeConfig)
  configEntries : List ConfigEntry
  sceneServiceRegistered : Bool
  deviceRegistry : List DeviceRecord
  flowInits : List String
  warnings : List String
  resetCalls : List String
deriving DecidableEq, Repr

/-- Modelled from the spec: the bridge-handle collaborator of the contract
section (`HueBridge` is defined in `hue/bridge.py`, outside the reviewed
file) together with the external library function `normalize_bridge_id`
(aiohue).  `bridgeSetupOk host allowUnreachable allowGroups` is the boolean
outcome of `bridge.async_setup()`; `bridgeApiConfig host` is the snapshot
`bridge.api.config` read after a successful setup; `bridgeResetOk host` is
the boolean outcome of `bridge.async_reset()`.  Per the contract the
collaborator itself never touches the process-wide registry; only the
reviewed module does. -/
structure Env where
  bridgeSetupOk : String → Bool → Bool → Bool
  bridgeApiConfig : String → BridgeApiConfig
  bridgeResetOk : String → Bool
  normalize_bridge_id : String → String

/-- Lines 116-135: the body of the `for bridge_conf in bridges:` loop — store
the block under `hass.data[DATA_CONFIGS][host]`, and unless the host already
has a config entry, schedule an import flow for it. -/
def setupStep (configuredHosts : List String) (st : HassState) (bc : BridgeConfig) :
    HassState :=
  let st1 := { st with dataConfigs := insertKey st.dataConfigs bc.host bc }
  if bc.host ∈ configuredHosts then st1
  else { st1 with flowInits := st1.flowInits ++ [bc.host] }

/-- Lines 63-137: `async_setup(hass, config)` (the nested scene handler is
embedded separately as `hue_activate_scene`).  Reset the two `hass.data`
maps, register the scene service, return success early when no `bridges`
key is configured, otherwise run the per-block loop and return success. -/
def async_setup (s : HassState) (config : Option HueConf) : Bool × HassState :=
  let conf : HueConf := match config with
    | none => { bridges := none }
    | some c => c
  let s1 : HassState :=
    { s with domainData := [], dataConfigs := [], sceneServiceRegistered := true }
  match conf.bridges with
  | none => (true, s1)
  | some bridges =>
    let configuredHosts := s1.configEntries.map ConfigEntry.host
    (true, bridges.foldl (setupStep configuredHosts) s1)

/-- Modelled from the spec: the device catalog's `async_get_or_create` —
creates the record unless one with the same identifiers already exists. -/
def deviceGetOrCreate (registry : List DeviceRecord) (rec : DeviceRecord) :
    List DeviceRecord :=
  if registry.any fun r => decide (r.identifiers = rec.identifiers) then registry
  else registry ++ [rec]

/-- Line 180: the firmware-update warning text. -/
def swUpdateWarningMsg : String :=
  "Please check for software updates of the bridge in the Philips Hue App."

/-- Lines 147-152, first option: `config[CONF_ALLOW_UNREACHABLE]` when the
host has a stored static config, the default otherwise. -/
def resolvedAllowUnreachable (s : HassState) (host : String) : Bool :=
  match lookupKey s.dataConfigs host with
  | none => DEFAULT_ALLOW_UNREACHABLE
  | some c => c.allow_unreachable

/-- Lines 147-152, second option: `config[CONF_ALLOW_HUE_GROUPS]` when the
host has a stored static config, the default otherwise. -/
def resolvedAllowGroups (s : HassState) (host : String) : Bool :=
  match lookupKey s.dataConfigs host with
  | none => DEFAULT_ALLOW_HUE_GROUPS
  | some c => c.allow_hue_groups

/-- Lines 140-183: `async_setup_entry(hass, entry)` — resolve the stored (or
default) options for the entry's host, bring the bridge up (failure returns
`False` with no state change), record the registration, set the entry's
`unique_id` when missing, create the device-catalog record, and warn when the
bridge firmware reports `readytoinstall`. -/
def async_setup_entry (env : Env) (s : HassState) (entry : ConfigEntry) :
    Bool × HassState :=
  let host := entry.host
  let allow_unreachable := resolvedAllowUnreachable s host
  let allow_groups := resolvedAllowGroups s host
  if env.bridgeSetupOk host allow_unreachable allow_groups = false then
    (false, s)
  else
    let api := env.bridgeApiConfig host
    let s1 := { s with
      domainData := insertKey s.domainData host ⟨allow_unreachable, allow_groups, api⟩ }
    let s2 := if entry.uniqueId = none then
        { s1 with configEntries := s1.configEntries.map fun e =>
            if e.entryId = entry.entryId then
              { e with uniqueId := some (env.normalize_bridge_id api.bridgeid) }
            else e }
      else s1
    let devRec : DeviceRecord :=
      { configEntryId := entry.entryId
        connections := [(CONNECTION_NETWORK_MAC, api.mac)]
        identifiers := [(DOMAIN, api.bridgeid)]
        manufacturer := "Signify"
        name := api.name
        model := api.modelid
        swVersion := api.swversion }
    let s3 := { s2 with deviceRegistry := deviceGetOrCreate s2.deviceRegistry devRec }
    let s4 := if api.swupdate2_bridge_state = "readytoinstall" then
        { s3 with warnings := s3.warnings ++ [swUpdateWarningMsg] }
      else s3
    (true, s4)

/-- Lines 186-190: `async_unload_entry(hass, entry)` —
`hass.data[DOMAIN].pop(entry.data["host"])` (a `KeyError`, modelled as
`none`, when no registration exists), then `hass.services.async_remove` of
the scene service, then return the result of `bridge.async_reset()`. -/
def async_unload_entry (env : Env) (s : HassState) (entry : ConfigEntry) :
    Option (Bool × HassState) :=
  match lookupKey s.domainData entry.host with
  | none => none
  | some _ =>
    some (env.bridgeResetOk entry.host,
      { s with
        domainData := eraseKey s.domainData entry.host
        sceneServiceRegistered := false
        resetCalls := s.resetCalls ++ [entry.host] })

/-! Concrete sample data used by the witnesses and counterexamples. -/

/-- Sample bridge behaviour whose activation always returns null (success). -/
def okBridge : BridgeBehavior := fun _ _ _ => none

/-- Sample bridge behaviour whose activation always returns a non-null
failure value. -/
def failBridge : BridgeBehavior := fun _ _ _ => some "scene not found"

/-- Sample service call used by the witnesses. -/
def demoCall : SceneCall := ⟨"Living room", "Relax"⟩

/-- Sample bridge task that returns a null result value. -/
def okTask : BridgeTask := fun _ _ _ => Except.ok none

/-- Sample bridge task that returns a non-null failure value (still a value,
not a raised exception). -/
def failTask : BridgeTask := fun _ _ _ => Except.ok (some "scene not found")

/-- Sample api-config snapshot used by the witnesses. -/
def demoApi : BridgeApiConfig :=
  ⟨"0017882affe2", "00:17:88:2a:ff:e2", "Hue bridge", "BSB002", "1935144040", "noupdates"⟩

/-- Sample collaborator whose bridge always fails bring-up. -/
def downEnv : Env := ⟨fun _ _ _ => false, fun _ => demoApi, fun _ => true, fun b => b⟩

/-- Sample collaborator whose bridge always comes up. -/
def upEnv : Env := ⟨fun _ _ _ => true, fun _ => demoApi, fun _ => true, fun b => b⟩

/-- Sample config entry without a unique id. -/
def demoEntry : ConfigEntry := ⟨"entry1", "192.168.1.10", none⟩

/-- Sample bridge registration. -/
def demoReg : HueBridgeReg := ⟨false, true, demoApi⟩

/-- The empty `hass` state. -/
def emptyState : HassState := ⟨[], [], [], false, [], [], [], []⟩

/-- Sample state holding one config entry for the demo entry's host. -/
def entryState : HassState := ⟨[], [], [demoEntry], true, [], [], [], []⟩

/-- Sample state with two registered bridges and the scene service up. -/
def twoBridgeState : HassState :=
  ⟨[("192.168.1.10", demoReg), ("192.168.1.20", demoReg)], [], [demoEntry],
    true, [], [], [], []⟩

/-- A bridge configuration block; `dupConf` lists it twice. -/
def dupBlock : BridgeConfig := ⟨"192.168.1.10", false, true⟩

/-- A static configuration that lists the same host in two blocks. -/
def dupConf : HueConf := ⟨some [dupBlock, dupBlock]⟩

/-- Sample state holding one config entry for host `10.0.0.1`. -/
def regEntryState : HassState :=
  ⟨[], [], [⟨"entry0", "10.0.0.1", some "abc"⟩], false, [], [], [], []⟩

/-- Sample configured blocks: one host already registered in
`regEntryState`, one new. -/
def witBridges : List BridgeConfig :=
  [⟨"10.0.0.1", false, true⟩, ⟨"10.0.0.2", true, false⟩]

/-! Helper lemmas. -/

@[simp] lemma runPass_skipReload (bridges : List BridgeBehavior) (call : SceneCall)
    (sr : Bool) : (runPass bridges call sr).skipReload = sr := rfl

@[simp] lemma runPass_invocations (bridges : List BridgeBehavior) (call : SceneCall)
    (sr : Bool) :
    (runPass bridges call sr).invocations =
      (List.range bridges.length).map fun i => ⟨i, sr, sr⟩ := rfl

@[simp] lemma runPass_results (bridges : List BridgeBehavior) (call : SceneCall)
    (sr : Bool) :
    (runPass bridges call sr).results =
      bridges.map fun bridge => bridge call sr sr := rfl

lemma retry_passes_eq (bridges : List BridgeBehavior) (call : SceneCall) :
    (hue_activate_scene_retry bridges call).passes = [runPass bridges call false] := by
  by_cases h : none ∈ bridges.map fun bridge => bridge call false false
  · simp [hue_activate_scene_retry, h]
  · simp [hue_activate_scene_retry, h]

lemma main_passes_shape (bridges : List BridgeBehavior) (call : SceneCall) :
    (hue_activate_scene bridges call).passes = [runPass bridges call true] ∨
    (hue_activate_scene bridges call).passes =
      [runPass bridges call true, runPass bridges call false] := by
  by_cases h : none ∈ bridges.map fun bridge => bridge call true true
  · left
    simp [hue_activate_scene, h]
  · right
    simp [hue_activate_scene, h, retry_passes_eq]

lemma lookupKey_eraseKey {α : Type} (l : List (String × α)) (k : String) :
    lookupKey (eraseKey l k) k = none := by
  induction l with
  | nil => rfl
  | cons p rest ih =>
    by_cases h : p.1 = k
    · simpa [eraseKey, h] using ih
    · simpa [eraseKey, h, lookupKey] using ih

lemma lookupKey_eraseKey_ne {α : Type} (l : List (String × α)) (k k' : String)
    (hne : k' ≠ k) : lookupKey (eraseKey l k) k' = lookupKey l k' := by
  induction l with
  | nil => rfl
  | cons p rest ih =>
    by_cases h : p.1 = k
    · have hkk : ¬ (k = k') := fun hc => hne hc.symm
      simp [eraseKey, h, lookupKey, hkk, ih]
    · simp [eraseKey, h, lookupKey, ih]

lemma foldl_setupStep_flowInits (hosts : List String) (bridges : List BridgeConfig) :
    ∀ st : HassState,
      (bridges.foldl (setupStep hosts) st).flowInits =
        st.flowInits ++
          ((bridges.filter fun bc => decide (bc.host ∉ hosts)).map BridgeConfig.host) := by
  induction bridges with
  | nil =>
    intro st
    simp
  | cons bc rest ih =>
    intro st
    rw [List.foldl_cons, ih]
    by_cases h : bc.host ∈ hosts
    · simp [setupStep, h, List.filter_cons]
    · simp [setupStep, h, List.filter_cons]

/-! The claims. -/

/-- C1: if at least one bridge's first-pass invocation returns null (success),
the dispatch consists of exactly the first pass: no retry invocation is made
to any bridge and no warning is logged. -/
theorem C1_any_success_single_pass (bridges : List BridgeBehavior) (call : SceneCall)
    (h : ∃ bridge ∈ bridges, bridge call true true = none) :
    hue_activate_scene bridges call =
      { passes := [runPass bridges call true], warnings := [] } := by
  obtain ⟨b, hb, hbe⟩ := h
  have hmem : none ∈ bridges.map fun bridge => bridge call true true :=
    List.mem_map.mpr ⟨b, hb, hbe⟩
  simp [hue_activate_scene, hmem]

/-- Witness for C1 at a concrete two-bridge input where the first bridge
succeeds on the first pass. -/
theorem C1_any_success_single_pass_witness :
    (∃ bridge ∈ [okBridge, failBridge], bridge demoCall true true = none) ∧
    hue_activate_scene [okBridge, failBridge] demoCall =
      { passes := [runPass [okBridge, failBridge] demoCall true], warnings := [] } :=
  ⟨⟨okBridge, by simp, rfl⟩,
    C1_any_success_single_pass [okBridge, failBridge] demoCall ⟨okBridge, by simp, rfl⟩⟩

/-- C2: under the bridge collaborator contract — every per-bridge invocation
returns a result value (`Except.ok`), never raises — the gather fan-out of a
pass returns `ok` with all per-bridge results: no exception escapes the
dispatcher's fan-out and no bridge's failure aborts the broadcast. -/
theorem C2_no_exception_escapes_fanout (bridges : List BridgeTask) (call : SceneCall)
    (skipReload : Bool)
    (h : ∀ bridge ∈ bridges, ∀ u w : Bool, ∃ v, bridge call u w = Except.ok v) :
    ∃ vs, fanOut bridges call skipReload = Except.ok vs := by
  revert h
  induction bridges with
  | nil =>
    intro _
    exact ⟨[], rfl⟩
  | cons b bs ih =>
    intro h
    obtain ⟨v, hv⟩ := h b (List.mem_cons_self b bs) skipReload skipReload
    obtain ⟨vs, hvs⟩ := ih fun bridge hb u w => h bridge (List.mem_cons_of_mem _ hb) u w
    refine ⟨v :: vs, ?_⟩
    have hvs' : gatherResults (bs.map fun bridge => bridge call skipReload skipReload) =
        Except.ok vs := hvs
    simp [fanOut, gatherResults, hv, hvs']

/-- Witness for C2 at a concrete two-task input. -/
theorem C2_no_exception_escapes_fanout_witness :
    (∀ bridge ∈ [okTask, failTask], ∀ u w : Bool,
        ∃ v, bridge demoCall u w = Except.ok v) ∧
    ∃ vs, fanOut [okTask, failTask] demoCall true = Except.ok vs := by
  have h : ∀ bridge ∈ [okTask, failTask], ∀ u w : Bool,
      ∃ v, bridge demoCall u w = Except.ok v := by
    intro bridge hb u w
    rcases List.mem_cons.mp hb with h1 | h1
    · exact ⟨none, by rw [h1]; rfl⟩
    · rcases List.mem_cons.mp h1 with h2 | h2
      · exact ⟨some "scene not found", by rw [h2]; rfl⟩
      · simp at h2
  exact ⟨h, C2_no_exception_escapes_fanout [okTask, failTask] demoCall true h⟩

/-- C3: when every first-pass result and every retry-pass result is non-null,
exactly two passes execute (the first and one retry), the warning naming the
scene and group is logged, and no third pass occurs. -/
theorem C3_all_fail_two_passes_and_warning (bridges : List BridgeBehavior)
    (call : SceneCall)
    (h1 : ∀ bridge ∈ bridges, bridge call true true ≠ none)
    (h2 : ∀ bridge ∈ bridges, bridge call false false ≠ none) :
    hue_activate_scene bridges call =
      { passes := [runPass bridges call true, runPass bridges call false],
        warnings := [hueWarningMsg call.sceneName call.groupName] } := by
  have hm1 : none ∉ bridges.map fun bridge => bridge call true true := by
    intro hmem
    obtain ⟨b, hb, hbe⟩ := List.mem_map.mp hmem
    exact h1 b hb hbe
  have hm2 : none ∉ bridges.map fun bridge => bridge call false false := by
    intro hmem
    obtain ⟨b, hb, hbe⟩ := List.mem_map.mp hmem
    exact h2 b hb hbe
  simp [hue_activate_scene, hue_activate_scene_retry, hm1, hm2]

/-- Witness for C3 at a concrete one-bridge input that fails on both passes. -/
theorem C3_all_fail_two_passes_and_warning_witness :
    (∀ bridge ∈ [failBridge], bridge demoCall true true ≠ none) ∧
    (∀ bridge ∈ [failBridge], bridge demoCall false false ≠ none) ∧
    hue_activate_scene [failBridge] demoCall =
      { passes := [runPass [failBridge] demoCall true,
                   runPass [failBridge] demoCall false],
        warnings := [hueWarningMsg demoCall.sceneName demoCall.groupName] } := by
  have h1 : ∀ bridge ∈ [failBridge], bridge demoCall true true ≠ none := by
    intro bridge hb
    rw [List.mem_singleton] at hb
    rw [hb]
    exact fun hcon => Option.noConfusion hcon
  have h2 : ∀ bridge ∈ [failBridge], bridge demoCall false false ≠ none := by
    intro bridge hb
    rw [List.mem_singleton] at hb
    rw [hb]
    exact fun hcon => Option.noConfusion hcon
  exact ⟨h1, h2, C3_all_fail_two_passes_and_warning [failBridge] demoCall h1 h2⟩

/-- C4: with zero registered bridges both passes gather an empty result list,
which vacuously satisfies `None not in results`; so exactly one retry pass
follows the first, the warning is logged, and the empty gather itself yields
a value (`ok []`), never an unhandled error. -/
theorem C4_zero_bridges_two_passes (call : SceneCall) :
    hue_activate_scene [] call =
      { passes := [runPass [] call true, runPass [] call false],
        warnings := [hueWarningMsg call.sceneName call.groupName] } ∧
    fanOut [] call true = Except.ok [] ∧
    fanOut [] call false = Except.ok [] :=
  ⟨rfl, rfl, rfl⟩

/-- C5: in every dispatch, each invocation of a pass carries
`updated = hideWarnings = skip_reload` of that pass, and the passes executed
are either just the first pass (`skip_reload = true`: refreshed mode, internal
warnings suppressed) or the first pass followed by the single retry pass
(`skip_reload = false`: forced topology reload, warnings not suppressed). -/
theorem C5_pass_flags (bridges : List BridgeBehavior) (call : SceneCall) :
    (((hue_activate_scene bridges call).passes.all fun p =>
        p.invocations.all fun inv =>
          inv.updated == p.skipReload && inv.hideWarnings == p.skipReload) = true) ∧
    ((hue_activate_scene bridges call).passes.map Pass.skipReload = [true] ∨
     (hue_activate_scene bridges call).passes.map Pass.skipReload = [true, false]) := by
  have hshape := main_passes_shape bridges call
  constructor
  · rcases hshape with h | h <;> rw [h] <;>
      simp [List.all_eq_true, List.mem_map, List.mem_range]
  · rcases hshape with h | h <;> rw [h] <;> simp

/-- C6: when the bridge fails bring-up, `async_setup_entry` returns failure
with the state unchanged: no registration is added under the entry's host,
no unique identifier is written, and no device-catalog record is created. -/
theorem C6_setup_entry_failure_no_state_change (env : Env) (s : HassState)
    (entry : ConfigEntry)
    (h : ∀ au ag : Bool, env.bridgeSetupOk entry.host au ag = false) :
    async_setup_entry env s entry = (false, s) := by
  simp [async_setup_entry, h]

/-- Witness for C6 at a concrete input whose bridge always fails bring-up. -/
theorem C6_setup_entry_failure_no_state_change_witness :
    (∀ au ag : Bool, downEnv.bridgeSetupOk demoEntry.host au ag = false) ∧
    async_setup_entry downEnv emptyState demoEntry = (false, emptyState) :=
  ⟨fun _ _ => rfl,
    C6_setup_entry_failure_no_state_change downEnv emptyState demoEntry fun _ _ => rfl⟩

/-- C7 as stated is false on the code: a static configuration listing the
same unregistered host in two bridge blocks schedules two entry-creation
requests for that host, not exactly one. -/
theorem C7_counterexample_duplicate_host :
    (async_setup emptyState (some dupConf)).2.flowInits =
      ["192.168.1.10", "192.168.1.10"] ∧
    ¬ (async_setup emptyState (some dupConf)).2.flowInits.count "192.168.1.10" = 1 := by
  constructor
  · rfl
  · decide

/-- C7 (amended): `async_setup` always returns success, and the scheduled
entry-creation requests are exactly the configured bridge blocks whose host
has no existing config entry, in configuration order — one request per such
block (so a host listed in two blocks gets two requests), and none for a
host already registered. -/
theorem C7_amended_flow_per_block (s : HassState) (bridges : List BridgeConfig)
    (hf : s.flowInits = []) :
    (∀ config : Option HueConf, (async_setup s config).1 = true) ∧
    (async_setup s (some ⟨some bridges⟩)).2.flowInits =
      ((bridges.filter fun bc =>
          decide (bc.host ∉ s.configEntries.map ConfigEntry.host)).map
        BridgeConfig.host) := by
  constructor
  · intro config
    rcases config with _ | conf
    · rfl
    · rcases conf with ⟨_ | bl⟩
      · rfl
      · rfl
  · have hstep : async_setup s (some ⟨some bridges⟩) =
        (true, bridges.foldl (setupStep (s.configEntries.map ConfigEntry.host))
          { s with domainData := [], dataConfigs := [], sceneServiceRegistered := true }) :=
      rfl
    rw [hstep]
    rw [foldl_setupStep_flowInits]
    simp [hf]

/-- Witness for C7 (amended): one already-registered host, one new host; only
the new host gets a scheduled request. -/
theorem C7_amended_flow_per_block_witness :
    regEntryState.flowInits = [] ∧
    ((∀ config : Option HueConf, (async_setup regEntryState config).1 = true) ∧
     (async_setup regEntryState (some ⟨some witBridges⟩)).2.flowInits =
       ((witBridges.filter fun bc =>
           decide (bc.host ∉ regEntryState.configEntries.map ConfigEntry.host)).map
         BridgeConfig.host)) ∧
    (async_setup regEntryState (some ⟨some witBridges⟩)).2.flowInits = ["10.0.0.2"] :=
  ⟨rfl, C7_amended_flow_per_block regEntryState witBridges rfl, rfl⟩

/-- C8: with a registration present for the entry's host, unloading removes
exactly that registration, unregisters the scene service, tears the bridge
down, and returns the boolean outcome of the bridge teardown itself. -/
theorem C8_unload_entry (env : Env) (s : HassState) (entry : ConfigEntry)
    (b : HueBridgeReg) (hreg : lookupKey s.domainData entry.host = some b) :
    async_unload_entry env s entry =
      some (env.bridgeResetOk entry.host,
        { s with
          domainData := eraseKey s.domainData entry.host
          sceneServiceRegistered := false
          resetCalls := s.resetCalls ++ [entry.host] }) ∧
    lookupKey (eraseKey s.domainData entry.host) entry.host = none := by
  refine ⟨?_, lookupKey_eraseKey _ _⟩
  simp [async_unload_entry, hreg]

/-- Witness for C8 at a concrete two-registration state. -/
theorem C8_unload_entry_witness :
    lookupKey twoBridgeState.domainData demoEntry.host = some demoReg ∧
    (async_unload_entry upEnv twoBridgeState demoEntry =
      some (upEnv.bridgeResetOk demoEntry.host,
        { twoBridgeState with
          domainData := eraseKey twoBridgeState.domainData demoEntry.host
          sceneServiceRegistered := false
          resetCalls := twoBridgeState.resetCalls ++ [demoEntry.host] }) ∧
     lookupKey (eraseKey twoBridgeState.domainData demoEntry.host) demoEntry.host =
       none) := by
  have hreg : lookupKey twoBridgeState.domainData demoEntry.host = some demoReg := rfl
  exact ⟨hreg, C8_unload_entry upEnv twoBridgeState demoEntry demoReg hreg⟩

/-- C9: on a successful bring-up, the unique identifier — derived from the
bridge's advertised identifier via `normalize_bridge_id` — is written only
when the entry has none; when the entry's unique identifier is already set,
every config entry is left unchanged (set-once, idempotent). -/
theorem C9_unique_id_set_once (env : Env) (s : HassState) (entry : ConfigEntry)
    (hok : (async_setup_entry env s entry).1 = true) :
    (entry.uniqueId ≠ none →
      (async_setup_entry env s entry).2.configEntries = s.configEntries) ∧
    (entry.uniqueId = none →
      (async_setup_entry env s entry).2.configEntries =
        s.configEntries.map fun e =>
          if e.entryId = entry.entryId then
            { e with uniqueId := (some
                (env.normalize_bridge_id (env.bridgeApiConfig entry.host).bridgeid)) }
          else e) := by
  by_cases hsetup :
      env.bridgeSetupOk entry.host (resolvedAllowUnreachable s entry.host)
        (resolvedAllowGroups s entry.host) = false
  · simp [async_setup_entry, hsetup] at hok
  · constructor
    · intro hne
      by_cases hsw :
          (env.bridgeApiConfig entry.host).swupdate2_bridge_state = "readytoinstall" <;>
        simp [async_setup_entry, hsetup, hne, hsw]
    · intro hu
      by_cases hsw :
          (env.bridgeApiConfig entry.host).swupdate2_bridge_state = "readytoinstall" <;>
        simp [async_setup_entry, hsetup, hu, hsw]

/-- Witness for C9 at a concrete entry without a unique id, brought up by a
bridge that always succeeds. -/
theorem C9_unique_id_set_once_witness :
    (async_setup_entry upEnv entryState demoEntry).1 = true ∧
    ((demoEntry.uniqueId ≠ none →
      (async_setup_entry upEnv entryState demoEntry).2.configEntries =
        entryState.configEntries) ∧
     (demoEntry.uniqueId = none →
      (async_setup_entry upEnv entryState demoEntry).2.configEntries =
        entryState.configEntries.map fun e =>
          if e.entryId = demoEntry.entryId then
            { e with uniqueId := (some
                (upEnv.normalize_bridge_id
                  (upEnv.bridgeApiConfig demoEntry.host).bridgeid)) }
          else e)) :=
  ⟨rfl, C9_unique_id_set_once upEnv entryState demoEntry rfl⟩

/-- C10: unloading one entry sets the scene-service registration to false
unconditionally, even though another bridge registration remains: afterwards
the other host is still registered but the scene command handler is gone. -/
theorem C10_unload_removes_service_for_all (env : Env) (s : HassState)
    (entry : ConfigEntry) (b b' : HueBridgeReg) (otherHost : String)
    (hreg : lookupKey s.domainData entry.host = some b)
    (hne : otherHost ≠ entry.host)
    (hother : lookupKey s.domainData otherHost = some b') :
    ∃ r s2, async_unload_entry env s entry = some (r, s2) ∧
      s2.sceneServiceRegistered = false ∧
      lookupKey s2.domainData otherHost = some b' ∧
      lookupKey s2.domainData entry.host = none := by
  refine ⟨env.bridgeResetOk entry.host,
    { s with
      domainData := eraseKey s.domainData entry.host
      sceneServiceRegistered := false
      resetCalls := s.resetCalls ++ [entry.host] }, ?_, rfl, ?_, ?_⟩
  · simp [async_unload_entry, hreg]
  · show lookupKey (eraseKey s.domainData entry.host) otherHost = some b'
    rw [lookupKey_eraseKey_ne _ _ _ hne]
    exact hother
  · show lookupKey (eraseKey s.domainData entry.host) entry.host = none
    exact lookupKey_eraseKey _ _

/-- Witness for C10: two registered bridges; unloading one leaves the other
registered while the scene service is unregistered. -/
theorem C10_unload_removes_service_for_all_witness :
    lookupKey twoBridgeState.domainData demoEntry.host = some demoReg ∧
    ("192.168.1.20" ≠ demoEntry.host) ∧
    lookupKey twoBridgeState.domainData "192.168.1.20" = some demoReg ∧
    (∃ r s2, async_unload_entry upEnv twoBridgeState demoEntry = some (r, s2) ∧
      s2.sceneServiceRegistered = false ∧
      lookupKey s2.domainData "192.168.1.20" = some demoReg ∧
      lookupKey s2.domainData demoEntry.host = none) := by
  have hreg : lookupKey twoBridgeState.domainData demoEntry.host = some demoReg := rfl
  have hne : ("192.168.1.20" : String) ≠ demoEntry.host := by decide
  have hother : lookupKey twoBridgeState.domainData "192.168.1.20" = some demoReg := by
    decide
  exact ⟨hreg, hne, hother,
    C10_unload_removes_service_for_all upEnv twoBridgeState demoEntry demoReg demoReg
      "192.168.1.20" hreg hne hother⟩

end Hue
